import Mathlib

/-!
Verification of the sandboxed execution and artifact pipeline of the
copilot-mcp-server repository.

The development shallowly embeds the two source modules the claims are about:

* `src/functions/python_code_functions.py` — `_get_files_in_directory`,
  `_get_file_info`, `execute_python_code`;
* `src/functions/workspace_functions.py` — `get_user_id_from_token`,
  `ensure_workspace_directory_exists`, `upload_file_to_workspace_url`,
  `upload_file_to_workspace`, `upload_files_to_workspace`.

Pure Python logic (path manipulation, classification, counting, record
construction) is translated directly.  Interactions with the outside world
(the filesystem walk, `os.stat`, the subprocess spawn, the JSON-RPC calls and
the HTTP PUT) are modelled by explicit environment records that carry the
outcome each call observes, so every function stays executable and every
control-flow decision of the source is preserved.
-/

namespace CopilotMcp

/-! ## String primitives

The Python string operations the source uses (`startswith`, `endswith`,
`split`, `in`, `replace`, `lower`) are implemented here by structural
recursion over character lists so that every definition evaluates inside the
kernel; each is a direct rendering of the corresponding Python semantics. -/

/-- `needle` is a prefix of the character list. -/
def chIsPrefix : List Char → List Char → Bool
  | [], _ => true
  | _ :: _, [] => false
  | a :: as, b :: bs => a == b && chIsPrefix as bs

/-- Python's `needle in haystack`: the needle occurs as a contiguous
substring. -/
def chInfixOf (needle : List Char) : List Char → Bool
  | [] => chIsPrefix needle []
  | h :: t => chIsPrefix needle (h :: t) || chInfixOf needle t

/-- Python's `haystack.split(c)` for a single-character separator. -/
def splitOnChar (c : Char) : List Char → List (List Char)
  | [] => [[]]
  | x :: xs =>
    match splitOnChar c xs with
    | [] => [[]]
    | part :: parts => if x == c then [] :: part :: parts else (x :: part) :: parts

/-- Python's `haystack.replace(needle, repl)` (all occurrences, nonempty
needle), with an explicit fuel argument so the recursion is structural. -/
def chReplaceAux (needle repl : List Char) : Nat → List Char → List Char
  | _, [] => []
  | 0, l => l
  | fuel + 1, h :: t =>
    if chIsPrefix needle (h :: t) ∧ needle ≠ [] then
      repl ++ chReplaceAux needle repl fuel (List.drop (needle.length - 1) t)
    else
      h :: chReplaceAux needle repl fuel t

/-- Python's `s.startswith(pre)`. -/
def strStartsWith (s pre : String) : Bool :=
  chIsPrefix pre.toList s.toList

/-- Python's `s.endswith(suf)`. -/
def strEndsWith (s suf : String) : Bool :=
  chIsPrefix suf.toList.reverse s.toList.reverse

/-- Python's `s.split(c)` for one separator character, as strings. -/
def strSplitOnChar (s : String) (c : Char) : List String :=
  (splitOnChar c s.toList).map String.mk

/-- Python's `needle in haystack` on strings. -/
def strContains (haystack needle : String) : Bool :=
  chInfixOf needle.toList haystack.toList

/-- Python's `s.replace(needle, repl)` on strings. -/
def strReplace (s needle repl : String) : String :=
  String.mk (chReplaceAux needle.toList repl.toList s.toList.length s.toList)

/-- Python's `a <= b` on strings: lexicographic comparison of the code-point
sequences (the order `sorted()` uses). -/
def chLe : List Char → List Char → Bool
  | [], _ => true
  | _ :: _, [] => false
  | a :: as, b :: bs => decide (a < b) || (a == b && chLe as bs)

/-- String comparison used to model Python's `sorted()` on paths. -/
def pyStrLe (a b : String) : Bool :=
  chLe a.toList b.toList

/-- Python's `str.lower()` (ASCII range, which is all the source compares). -/
def strLower (s : String) : String :=
  String.mk (s.toList.map Char.toLower)

/-! ## Path helpers (embedding of the `posixpath` functions the source calls) -/

/-- Embedding of `posixpath.join` restricted to two arguments, as used by
`os.path.join(root, filename)` and friends in the source. -/
def pathJoin (a b : String) : String :=
  if strStartsWith b "/" then b
  else if a = "" then b
  else if strEndsWith a "/" then a ++ b
  else a ++ "/" ++ b

/-- Embedding of `os.path.basename` for POSIX paths: the part after the last
separator. -/
def basename (p : String) : String :=
  (strSplitOnChar p '/').getLastD ""

/-- Component-processing loop of `posixpath.normpath`: drops `""` and `"."`,
resolves a `".."` against a preceding real component, and keeps leading
`".."` components of relative paths. -/
def normpathComps (initialSlashes : Nat) : List String → List String → List String
  | acc, [] => acc
  | acc, comp :: rest =>
    if comp = "" ∨ comp = "." then
      normpathComps initialSlashes acc rest
    else if comp ≠ ".." ∨ (initialSlashes = 0 ∧ acc = []) ∨
        (acc ≠ [] ∧ acc.getLastD "" = "..") then
      normpathComps initialSlashes (acc ++ [comp]) rest
    else if acc ≠ [] then
      normpathComps initialSlashes acc.dropLast rest
    else
      normpathComps initialSlashes acc rest

/-- Embedding of `posixpath.normpath`.  Purely syntactic: collapses repeated
separators and `"."`/`".."` components; it does not consult the filesystem
and therefore cannot resolve symbolic links. -/
def normpath (path : String) : String :=
  if path = "" then "."
  else
    let initialSlashes : Nat :=
      if strStartsWith path "/" then
        if strStartsWith path "//" ∧ ¬ strStartsWith path "///" then 2 else 1
      else 0
    let comps := strSplitOnChar path '/'
    let newComps := normpathComps initialSlashes [] comps
    let joined := String.intercalate "/" newComps
    let res := String.mk (List.replicate initialSlashes '/') ++ joined
    if res = "" then "." else res

/-- Extension part of `os.path.splitext`, lower half of the fallback MIME
classification in `_get_file_info`: the suffix from the last dot of the
basename, where leading dots of the basename do not count. -/
def splitextExt (p : String) : String :=
  let b := basename p
  let leadDots := (b.toList.takeWhile (fun c => c == '.')).length
  let rest := String.mk (b.toList.drop leadDots)
  if rest.toList.any (fun c => c == '.') then
    "." ++ (strSplitOnChar rest '.').getLastD ""
  else ""

/-- Python truthiness of an optional string (`if token:`): present and
nonempty. -/
def truthy : Option String → Bool
  | none => false
  | some s => s ≠ ""

/-! ## Directory snapshotter (`_get_files_in_directory`, lines 26–41) -/

/-- What `os.walk` yields for one directory tree: whether
`os.path.exists(directory)` holds, and the `(root, filename)` pairs the walk
produces.  The walk itself is an OS interaction, so it is environment data;
the processing of its output is translated below. -/
structure DirWalk where
  dirExists : Bool
  entries : List (String × String)
deriving DecidableEq

/-- Embedding of `_get_files_in_directory`: empty set when the directory does
not exist, otherwise the set of `os.path.normpath(os.path.join(root,
filename))` over the walk output.  (The source's `except` around the walk is
internal to the walk model and cannot fire here.) -/
def _get_files_in_directory (w : DirWalk) : List String :=
  if ¬ w.dirExists then []
  else (w.entries.map (fun e => normpath (pathJoin e.1 e.2))).dedup

/-! ## Artifact metadata extractor (`_get_file_info`, lines 44–104) -/

/-- Per-path facts the OS supplies to `_get_file_info`: the `os.stat` outcome,
`os.path.isfile`, the `mimetypes.guess_type` table lookup, and the result of
reading the file as UTF-8 (`none` models `UnicodeDecodeError`/`IOError`). -/
structure FileFacts where
  statOk : Bool := true
  statErr : String := ""
  size : Nat := 0
  mtime : Int := 0
  isFile : Bool := true
  guessedMime : Option String := none
  readContent : Option String := none
deriving DecidableEq

/-- The dictionary `_get_file_info` returns; absent keys are `none`. -/
structure FileInfo where
  path : String
  local_path : Option String := none
  name : Option String := none
  size : Option Nat := none
  modified_time : Option Int := none
  is_file : Option Bool := none
  mime_type : Option String := none
  type : Option String := none
  content : Option String := none
  error : Option String := none
deriving DecidableEq

/-- Embedding of `_get_file_info`. -/
def _get_file_info (facts : FileFacts) (file_path : String)
    (include_contents : Bool) : FileInfo :=
  if ¬ facts.statOk then
    { path := file_path, error := some ("Could not read file info: " ++ facts.statErr) }
  else
    let base : FileInfo :=
      { path := file_path
        local_path := some file_path
        name := some (basename file_path)
        size := some facts.size
        modified_time := some facts.mtime
        is_file := some facts.isFile }
    let withType : FileInfo :=
      match facts.guessedMime with
      | some m =>
        { base with mime_type := some m, type := some ((strSplitOnChar m '/').headD "") }
      | none =>
        let ext := strLower (splitextExt file_path)
        if ext ∈ [".png", ".jpg", ".jpeg", ".gif", ".bmp", ".svg", ".webp"] then
          { base with type := some "image"
                      mime_type := some (if ext ≠ "" then "image/" ++ ext.drop 1
                                         else "image/unknown") }
        else if ext ∈ [".csv", ".txt", ".json", ".xml", ".yaml", ".yml"] then
          { base with type := some "text" }
        else if ext = ".pdf" then
          { base with type := some "document", mime_type := some "application/pdf" }
        else
          { base with type := some "unknown" }
    if ¬ include_contents then withType
    else if withType.type = some "text" ∧ facts.size < 10000 then
      match facts.readContent with
      | some c => { withType with content := some c }
      | none => withType
    else withType

/-! ## Workspace uploader (`workspace_functions.py`)

The JSON-RPC calls and the HTTP PUT are network interactions; each is
modelled by an outcome value the environment supplies.  Everything the
source does with those outcomes — the "already exists" tolerance, the
per-file gating, the error-message construction, the batch counting — is
translated directly. -/

/-- Outcome of `api.call(...)` as observed by a caller that only cares
whether the call returned or raised (`ensure_workspace_directory_exists`):
either it returned normally or it raised an exception carrying `str(e)`. -/
inductive CallOutcome where
  | ok
  | exn (msg : String)
deriving DecidableEq

/-- Outcome of the `requests.put` in `upload_file_to_workspace_url`: an HTTP
response with status code and body text, or a raised exception. -/
inductive HttpOutcome where
  | resp (status : Nat) (text : String)
  | exn (msg : String)
deriving DecidableEq

/-- The dictionary returned by `workspace_create_upload_node` (the function
itself is one JSON-RPC call plus response-shape parsing whose inputs come
from the network, so its result is environment data at this boundary): a
success flag, the extracted upload URL on success, an error message
otherwise. -/
structure CreateNodeRes where
  success : Bool
  upload_url : String := ""
  error : Option String := none
deriving DecidableEq

/-- The dictionary returned by `ensure_workspace_directory_exists`. -/
structure EnsureRes where
  success : Bool
  workspace_dir : Option String := none
  error : Option String := none
deriving DecidableEq

/-- The dictionary returned by `upload_file_to_workspace_url`. -/
structure UrlUploadRes where
  success : Bool
  message : Option String := none
  error : Option String := none
  status_code : Option Nat := none
deriving DecidableEq

/-- The per-file dictionary returned by `upload_file_to_workspace` and
collected in the batch result's `files` list. -/
structure FileUploadResult where
  success : Bool
  file : String
  workspace_path : Option String := none
  message : Option String := none
  error : Option String := none
deriving DecidableEq

/-- Environment for one `upload_file_to_workspace` call: the outcome of the
ensure-directory JSON-RPC call, the result of `workspace_create_upload_node`,
whether `os.path.exists(file_path)` holds, and the PUT outcome. -/
structure FileUploadEnv where
  ensureOutcome : CallOutcome
  createResult : CreateNodeRes
  fileExists : Bool := true
  putOutcome : HttpOutcome
deriving DecidableEq

/-- Embedding of `get_user_id_from_token` (lines 148–167): first
`|`-separated segment with every occurrence of `un=` removed; `none` for an
empty token. -/
def get_user_id_from_token (token : String) : Option String :=
  if token = "" then none
  else some (strReplace ((strSplitOnChar token '|').headD "") "un=" "")

/-- Embedding of `ensure_workspace_directory_exists` (lines 449–490): a
normal return is success; an exception whose lowercased message contains
`"already exists"` or `"exists"` is tolerated as success; any other
exception yields a failure record. -/
def ensure_workspace_directory_exists (outcome : CallOutcome)
    (workspace_dir : String) : EnsureRes :=
  match outcome with
  | .ok => { success := true, workspace_dir := some workspace_dir }
  | .exn emsg =>
    let msg := strLower emsg
    if strContains msg "already exists" ∨ strContains msg "exists" then
      { success := true, workspace_dir := some workspace_dir }
    else
      { success := false
        error := some ("Failed to ensure workspace directory " ++ workspace_dir
          ++ ": " ++ emsg) }

/-- Embedding of `upload_file_to_workspace_url` (lines 282–351): existence
check, URL sanity checks, then the PUT; status 200 is success, any other
status or exception is a failure with the captured detail. -/
def upload_file_to_workspace_url (fileExists : Bool) (putOutcome : HttpOutcome)
    (file_path upload_url : String) : UrlUploadRes :=
  if ¬ fileExists then
    { success := false, error := some ("File " ++ file_path ++ " does not exist") }
  else if upload_url = "" then
    { success := false, error := some "Upload URL is missing or not a string" }
  else if ¬ (strStartsWith upload_url "http://" ∨ strStartsWith upload_url "https://") then
    { success := false
      error := some ("Upload URL is invalid (must start with http/https): " ++ upload_url) }
  else
    match putOutcome with
    | .resp 200 _ =>
      { success := true
        message := some ("File " ++ basename file_path ++ " uploaded successfully")
        status_code := some 200 }
    | .resp code text =>
      { success := false
        error := some ("Upload failed with status code " ++ toString code ++ ": "
          ++ text.take 200)
        status_code := some code }
    | .exn msg =>
      { success := false, error := some ("Upload failed: " ++ msg) }

/-- Embedding of `upload_file_to_workspace` (lines 354–446): ensure the
destination directory, create the upload node, PUT the bytes; the first
failing step produces this file's failure record and later steps are not
attempted. -/
def upload_file_to_workspace (fenv : FileUploadEnv)
    (file_path workspace_dir : String) : FileUploadResult :=
  let filename := basename file_path
  let ensure_result := ensure_workspace_directory_exists fenv.ensureOutcome workspace_dir
  if ¬ ensure_result.success then
    { success := false, file := filename
      error := some (ensure_result.error.getD "Failed to ensure workspace directory exists") }
  else
    let workspace_path := pathJoin workspace_dir filename
    let create_result := fenv.createResult
    if ¬ create_result.success then
      { success := false, file := filename
        error := some (create_result.error.getD "Failed to create upload node") }
    else
      let upload_result :=
        upload_file_to_workspace_url fenv.fileExists fenv.putOutcome
          file_path create_result.upload_url
      if upload_result.success then
        { success := true, file := filename
          workspace_path := some workspace_path
          message := some (upload_result.message.getD "File uploaded successfully") }
      else
        { success := false, file := filename
          error := some (upload_result.error.getD "Upload failed") }

/-- The batch result dictionary of `upload_files_to_workspace`. -/
structure BatchResult where
  total_files : Nat
  successful : Nat
  failed : Nat
  files : List FileUploadResult
  success : Bool
deriving DecidableEq

/-- Mutable accumulator of the batch loop (`results` before the final
`success` key is added). -/
structure BatchAcc where
  successful : Nat
  failed : Nat
  files : List FileUploadResult
deriving DecidableEq

/-- The `for i, file_path in enumerate(file_paths, 1)` loop of
`upload_files_to_workspace` (lines 519–528): each iteration performs one
`upload_file_to_workspace` call against that call's own environment
(`world i`), appends the per-file result and bumps one counter. -/
def upload_files_go (world : Nat → FileUploadEnv) (workspace_dir : String) :
    Nat → List String → BatchAcc → BatchAcc
  | _, [], acc => acc
  | i, p :: rest, acc =>
    let r := upload_file_to_workspace (world i) p workspace_dir
    upload_files_go world workspace_dir (i + 1) rest
      { successful := if r.success then acc.successful + 1 else acc.successful
        failed := if r.success then acc.failed else acc.failed + 1
        files := acc.files ++ [r] }

/-- Embedding of `upload_files_to_workspace` (lines 493–533). -/
def upload_files_to_workspace (world : Nat → FileUploadEnv)
    (file_paths : List String) (workspace_dir : String) : BatchResult :=
  let acc := upload_files_go world workspace_dir 0 file_paths ⟨0, 0, []⟩
  { total_files := file_paths.length
    successful := acc.successful
    failed := acc.failed
    files := acc.files
    success := decide (acc.failed = 0) }

/-- The list of per-file results the batch loop produces, written as a direct
recursion: entry `k` of the run started at index `i` is the upload of the
`k`-th remaining path against environment `world (i + k)`, independent of
every other entry. -/
def uploadResults (world : Nat → FileUploadEnv) (workspace_dir : String) :
    Nat → List String → List FileUploadResult
  | _, [] => []
  | i, p :: rest =>
    upload_file_to_workspace (world i) p workspace_dir
      :: uploadResults world workspace_dir (i + 1) rest

/-! ## Execution orchestrator (`execute_python_code`, lines 107–434) -/

/-- Outcome of the `subprocess.run(singularity_cmd, ...)` call: normal
completion with return code and captured streams, `subprocess.TimeoutExpired`,
`FileNotFoundError` (the `singularity` binary is missing), or any other
spawn exception. -/
inductive SpawnOutcome where
  | completed (returncode : Int) (stdout stderr : String)
  | timeoutExpired
  | binaryNotFound
  | otherError (msg : String)
deriving DecidableEq

/-- The configuration dictionary, restricted to the keys
`execute_python_code` reads; keys read with a default are fields with that
default, `singularity_container` is read without one. -/
structure Config where
  singularity_container : Option String := none
  default_timeout : Nat := 30
  include_file_contents : Bool := true
  workspace_output : String := "CopilotCodeDev"
  workspace_url : String := "https://p3.theseed.org/services/Workspace"
  copilot_sessions_base : String := "/tmp/copilot/sessions"
deriving DecidableEq

/-- Everything the outside world decides during one `execute_python_code`
call: the filesystem checks, the generated run-folder name
(`python_run_{timestamp}_{uuid}`), the `os.makedirs` and script-write
outcomes, the two directory walks, the subprocess outcome, the per-path stat
facts, and the per-file upload environments used by the batch uploader. -/
structure ExecEnv where
  containerOnDisk : Bool := true
  sessionDirExists : Bool := true
  sessionDirIsDir : Bool := true
  sessionDirWritable : Bool := true
  runFolderName : String := "python_run_20240101_000000_00000000"
  makedirsOk : Bool := true
  makedirsErr : String := ""
  writeOk : Bool := true
  writeErr : String := ""
  walkBefore : DirWalk := ⟨true, []⟩
  spawn : SpawnOutcome := .completed 0 "" ""
  walkAfter : DirWalk := ⟨true, []⟩
  facts : String → FileFacts := fun _ => {}
  uploadWorld : Nat → FileUploadEnv :=
    fun _ => { ensureOutcome := .ok
               createResult := { success := true, upload_url := "https://shock.example/node/1" }
               putOutcome := .resp 200 "" }

/-- The `workspace_upload` value of the result: either the batch summary,
the failure marker from the user-id extraction / upload exception paths, or
the explicit no-credential skip marker.  Absent keys are `none`. -/
structure WorkspaceUpload where
  success : Bool
  workspace_path : Option String := none
  total_files : Option Nat := none
  successful : Option Nat := none
  failed : Option Nat := none
  files : Option (List FileUploadResult) := none
  error : Option String := none
  message : Option String := none
deriving DecidableEq

/-- The result dictionary of `execute_python_code`, restricted to the keys
the claims are about (`result`, `source` and the wall-clock
`execution_time` are constants or real-time measurements). -/
structure ExecResult where
  success : Bool := false
  output : String := ""
  error : String := ""
  errorType : Option String := none
  output_files : List FileInfo := []
  workspace_upload : Option WorkspaceUpload := none
deriving DecidableEq

/-- `effective_timeout = timeout or config.get("default_timeout", 30)`
(line 157), with Python truthiness: `0` and `None` both fall back. -/
def effectiveTimeout (timeout : Option Nat) (config : Config) : Nat :=
  match timeout with
  | some t => if t ≠ 0 then t else config.default_timeout
  | none => config.default_timeout

/-- `session_dir = os.path.join(copilot_sessions_base, session_id)`
(line 164). -/
def sessionDirOf (config : Config) (session_id : String) : String :=
  pathJoin config.copilot_sessions_base session_id

/-- `run_folder_path = os.path.join(session_dir, run_folder_name)`
(line 218). -/
def runFolderPathOf (config : Config) (session_id : String) (env : ExecEnv) : String :=
  pathJoin (sessionDirOf config session_id) env.runFolderName

/-- `script_path = os.path.join(run_folder_path, "script.py")`
(lines 235–236). -/
def scriptPathOf (config : Config) (session_id : String) (env : ExecEnv) : String :=
  pathJoin (runFolderPathOf config session_id env) "script.py"

/-- Outcome classification of the subprocess (lines 271–320): return code 0
is success; a nonzero code is an `EXECUTION_ERROR` whose error text is the
captured stderr or, when that is empty, a synthesized message; timeout,
missing binary and other spawn exceptions get their fixed classifications.
Stream capture respects `capture_output`. -/
def classifyOutcome (spawn : SpawnOutcome) (capture_output : Bool)
    (effective_timeout : Nat) : ExecResult :=
  match spawn with
  | .completed rc out err =>
    let r : ExecResult :=
      { success := decide (rc = 0)
        output := if capture_output then out else ""
        error := if capture_output then err else "" }
    if rc ≠ 0 then
      { r with error := if r.error = "" then "Process exited with code " ++ toString rc
                        else r.error
               errorType := some "EXECUTION_ERROR" }
    else r
  | .timeoutExpired =>
    { success := false
      error := "Execution timed out after " ++ toString effective_timeout ++ " seconds"
      errorType := some "TIMEOUT_ERROR" }
  | .binaryNotFound =>
    { success := false
      error := "Singularity command not found. Is Singularity installed?"
      errorType := some "CONFIGURATION_ERROR" }
  | .otherError msg =>
    { success := false
      error := "Error executing Singularity command: " ++ msg
      errorType := some "EXECUTION_ERROR" }

/-- Output-file detection of the `finally` block (lines 321–346): snapshot
after, set-difference against the snapshot taken before the script was
written, drop every path whose normalization equals the normalized script
path, then extract metadata in sorted path order. -/
def detectOutputFiles (walkAfter : DirWalk) (files_before : List String)
    (script_path : String) (facts : String → FileFacts)
    (include_contents : Bool) : List FileInfo :=
  let files_after := _get_files_in_directory walkAfter
  let new_files := files_after.filter (fun f => decide (f ∉ files_before))
  let script_path_normalized := normpath script_path
  let output_files := new_files.filter (fun f => decide (normpath f ≠ script_path_normalized))
  (List.insertionSort (fun a b => pyStrLe a b = true) output_files).map
    (fun p => _get_file_info (facts p) p include_contents)

/-- Upload stage of the `finally` block (lines 348–416): with a truthy
token, extract the user id, build the workspace directory, upload the script
followed by every detected output file (each record carries a `path` key),
and record the batch summary; with no token, record the explicit skip
marker. -/
def uploadStage (world : Nat → FileUploadEnv) (token : Option String)
    (script_path : String) (output_files : List FileInfo)
    (run_folder_name : String) (config : Config) : WorkspaceUpload :=
  if truthy token then
    match get_user_id_from_token (token.getD "") with
    | none => { success := false, error := some "Could not extract user ID from token" }
    | some uid =>
      if uid = "" then
        { success := false, error := some "Could not extract user ID from token" }
      else
        let workspace_dir :=
          "/" ++ uid ++ "/home/" ++ config.workspace_output ++ "/" ++ run_folder_name
        let files_to_upload := script_path :: output_files.map (fun fi => fi.path)
        let upload_result := upload_files_to_workspace world files_to_upload workspace_dir
        { success := upload_result.success
          workspace_path := some workspace_dir
          total_files := some upload_result.total_files
          successful := some upload_result.successful
          failed := some upload_result.failed
          files := some upload_result.files }
  else
    { success := false, message := some "No token provided, skipping workspace upload" }

/-- Embedding of `execute_python_code`.  The validation chain (session id,
container configured and on disk, session directory present / a directory /
writable, run-folder creation, script write) aborts with the corresponding
error fields; otherwise the subprocess outcome is classified and — whatever
it was — the `finally` block detects output files and runs the upload
stage. -/
def execute_python_code (env : ExecEnv) (code : String) (timeout : Option Nat)
    (capture_output : Bool) (config : Config) (token : Option String)
    (session_id : String) : ExecResult :=
  let base : ExecResult := {}
  if session_id = "" then
    { base with error := "session_id is required but was not provided"
                errorType := some "MISSING_PARAMETER" }
  else
    let session_dir := sessionDirOf config session_id
    match config.singularity_container with
    | none =>
      { base with error := "singularity_container not specified in config"
                  errorType := some "CONFIGURATION_ERROR" }
    | some container =>
      if ¬ env.containerOnDisk then
        { base with error := "Singularity container not found: " ++ container
                    errorType := some "CONFIGURATION_ERROR" }
      else if ¬ env.sessionDirExists then
        { base with error := "Session directory does not exist: " ++ session_dir
                    errorType := some "CONFIGURATION_ERROR" }
      else if ¬ env.sessionDirIsDir then
        { base with error := "Session directory path exists but is not a directory: " ++ session_dir
                    errorType := some "CONFIGURATION_ERROR" }
      else if ¬ env.sessionDirWritable then
        { base with error := "Session directory is not writable: " ++ session_dir
                    errorType := some "CONFIGURATION_ERROR" }
      else if ¬ env.makedirsOk then
        { base with error := "Failed to create run folder: " ++ env.makedirsErr
                    errorType := some "EXECUTION_ERROR" }
      else
        let script_path := scriptPathOf config session_id env
        let files_before := _get_files_in_directory env.walkBefore
        if ¬ env.writeOk then
          { base with error := "Failed to write script file: " ++ env.writeErr
                      errorType := some "EXECUTION_ERROR" }
        else
          let afterExec := classifyOutcome env.spawn capture_output (effectiveTimeout timeout config)
          let output_files :=
            detectOutputFiles env.walkAfter files_before script_path env.facts
              config.include_file_contents
          let wu := uploadStage env.uploadWorld token script_path output_files
            env.runFolderName config
          { afterExec with output_files := output_files, workspace_upload := some wu }

/-- The failure classifications of the `Executing` stage: nonzero exit,
timeout, missing runtime binary, or any other spawn error. -/
def spawnFailing : SpawnOutcome → Bool
  | .completed rc _ _ => decide (rc ≠ 0)
  | .timeoutExpired => true
  | .binaryNotFound => true
  | .otherError _ => true

/-! ### Concrete sample data used by witnesses and counterexamples -/

/-- Run folder of the sample session (base `/tmp/copilot/sessions`, session
`s1`, generated run-folder name equal to `ExecEnv`'s default). -/
def sampleRunRoot : String :=
  "/tmp/copilot/sessions/s1/python_run_20240101_000000_00000000"

/-- A sample configuration naming a container image. -/
def sampleConfig : Config :=
  { singularity_container := some "/containers/python.sif" }

/-- A sample run that times out after writing one artifact: the walk after
execution sees the script and `out.txt`. -/
def sampleTimeoutEnv : ExecEnv :=
  { spawn := SpawnOutcome.timeoutExpired
    walkAfter := DirWalk.mk true [(sampleRunRoot, "script.py"), (sampleRunRoot, "out.txt")] }

/-- A sample run where the `singularity` binary itself is missing
(`FileNotFoundError` at spawn time), with one artifact on disk. -/
def sampleBinaryMissingEnv : ExecEnv :=
  { spawn := SpawnOutcome.binaryNotFound
    walkAfter := DirWalk.mk true [(sampleRunRoot, "script.py"), (sampleRunRoot, "out.txt")] }

/-- A sample run that exits nonzero with empty stderr. -/
def sampleNonzeroEnv : ExecEnv :=
  { spawn := SpawnOutcome.completed 2 "partial output" "" }

/-! ### Characterization of the batch loop -/

theorem countP_add_countP_not {α : Type} (p : α → Bool) :
    ∀ l : List α, l.countP p + l.countP (fun a => !p a) = l.length := by
  intro l
  induction l with
  | nil => simp
  | cons a l ih =>
    by_cases h : p a <;> simp [List.countP_cons, h] <;> omega

theorem uploadResults_length (world : Nat → FileUploadEnv) (dir : String) :
    ∀ (paths : List String) (i : Nat),
      (uploadResults world dir i paths).length = paths.length := by
  intro paths
  induction paths with
  | nil => intro i; rfl
  | cons p rest ih => intro i; simp [uploadResults, ih]

theorem uploadResults_get? (world : Nat → FileUploadEnv) (dir : String) :
    ∀ (paths : List String) (i k : Nat),
      (uploadResults world dir i paths).get? k =
        (paths.get? k).map (fun p => upload_file_to_workspace (world (i + k)) p dir) := by
  intro paths
  induction paths with
  | nil => intro i k; rfl
  | cons p rest ih =>
    intro i k
    cases k with
    | zero => rfl
    | succ k =>
      have harith : i + 1 + k = i + (k + 1) := by omega
      simp only [uploadResults, List.get?_cons_succ, ih, harith]

theorem upload_files_go_eq (world : Nat → FileUploadEnv) (dir : String) :
    ∀ (paths : List String) (i : Nat) (acc : BatchAcc),
      upload_files_go world dir i paths acc =
        { successful := acc.successful +
            (uploadResults world dir i paths).countP (fun r => r.success)
          failed := acc.failed +
            (uploadResults world dir i paths).countP (fun r => !r.success)
          files := acc.files ++ uploadResults world dir i paths } := by
  intro paths
  induction paths with
  | nil => intro i acc; simp [upload_files_go, uploadResults]
  | cons p rest ih =>
    intro i acc
    simp only [upload_files_go, uploadResults]
    rw [ih]
    by_cases h : (upload_file_to_workspace (world i) p dir).success <;>
      simp [h, List.countP_cons, BatchAcc.mk.injEq] <;> omega

theorem upload_files_to_workspace_eq (world : Nat → FileUploadEnv)
    (paths : List String) (dir : String) :
    upload_files_to_workspace world paths dir =
      { total_files := paths.length
        successful := (uploadResults world dir 0 paths).countP (fun r => r.success)
        failed := (uploadResults world dir 0 paths).countP (fun r => !r.success)
        files := uploadResults world dir 0 paths
        success := decide ((uploadResults world dir 0 paths).countP (fun r => !r.success) = 0) } := by
  simp [upload_files_to_workspace, upload_files_go_eq]

/-! ### Claims about the batch uploader -/

/-- C2: every file handed to the batch uploader is attempted against its own
per-call environment regardless of earlier files' failures (entry `k` of the
per-file results list is exactly the upload of input `k`, independent of the
other entries), the batch's overall success flag is true iff the failed
count is zero, and for three files of which exactly one upload fails the
aggregation yields `successful = 2`, `failed = 1`, `success = false`. -/
theorem c2_batch_aggregation (world : Nat → FileUploadEnv) (dir : String) :
    (∀ (paths : List String) (k : Nat),
      (upload_files_to_workspace world paths dir).files.get? k =
        (paths.get? k).map (fun p => upload_file_to_workspace (world k) p dir)) ∧
    (∀ paths : List String,
      (upload_files_to_workspace world paths dir).success = true ↔
        (upload_files_to_workspace world paths dir).failed = 0) ∧
    (∀ p0 p1 p2 : String,
      ([upload_file_to_workspace (world 0) p0 dir,
        upload_file_to_workspace (world 1) p1 dir,
        upload_file_to_workspace (world 2) p2 dir].countP (fun r => !r.success)) = 1 →
      (upload_files_to_workspace world [p0, p1, p2] dir).successful = 2 ∧
      (upload_files_to_workspace world [p0, p1, p2] dir).failed = 1 ∧
      (upload_files_to_workspace world [p0, p1, p2] dir).success = false) := by
  refine ⟨?_, ?_, ?_⟩
  · intro paths k
    rw [upload_files_to_workspace_eq]
    simpa using uploadResults_get? world dir paths 0 k
  · intro paths
    rw [upload_files_to_workspace_eq]
    simp
  · intro p0 p1 p2 h
    have hres : uploadResults world dir 0 [p0, p1, p2] =
        [upload_file_to_workspace (world 0) p0 dir,
         upload_file_to_workspace (world 1) p1 dir,
         upload_file_to_workspace (world 2) p2 dir] := by
      simp [uploadResults]
    rw [upload_files_to_workspace_eq, hres]
    have hsum := countP_add_countP_not (fun r : FileUploadResult => r.success)
      [upload_file_to_workspace (world 0) p0 dir,
       upload_file_to_workspace (world 1) p1 dir,
       upload_file_to_workspace (world 2) p2 dir]
    simp only [List.length_cons, List.length_nil] at hsum
    dsimp only
    exact ⟨by omega, h, by simp [h]⟩

/-- Witness for C2: a concrete three-file batch in which exactly the second
upload fails (its ensure-directory call raises a message without "exists"). -/
theorem c2_batch_aggregation_witness :
    (upload_files_to_workspace
        (fun k => if k = 1 then
            { ensureOutcome := CallOutcome.exn "permission denied"
              createResult := { success := true, upload_url := "https://shock.example/node/1" }
              putOutcome := HttpOutcome.resp 200 "" }
          else
            { ensureOutcome := CallOutcome.ok
              createResult := { success := true, upload_url := "https://shock.example/node/1" }
              putOutcome := HttpOutcome.resp 200 "" })
        ["/r/a.txt", "/r/b.txt", "/r/c.txt"] "/alice/home/D").successful = 2 ∧
    (upload_files_to_workspace
        (fun k => if k = 1 then
            { ensureOutcome := CallOutcome.exn "permission denied"
              createResult := { success := true, upload_url := "https://shock.example/node/1" }
              putOutcome := HttpOutcome.resp 200 "" }
          else
            { ensureOutcome := CallOutcome.ok
              createResult := { success := true, upload_url := "https://shock.example/node/1" }
              putOutcome := HttpOutcome.resp 200 "" })
        ["/r/a.txt", "/r/b.txt", "/r/c.txt"] "/alice/home/D").failed = 1 ∧
    (upload_files_to_workspace
        (fun k => if k = 1 then
            { ensureOutcome := CallOutcome.exn "permission denied"
              createResult := { success := true, upload_url := "https://shock.example/node/1" }
              putOutcome := HttpOutcome.resp 200 "" }
          else
            { ensureOutcome := CallOutcome.ok
              createResult := { success := true, upload_url := "https://shock.example/node/1" }
              putOutcome := HttpOutcome.resp 200 "" })
        ["/r/a.txt", "/r/b.txt", "/r/c.txt"] "/alice/home/D").success = false := by
  exact (c2_batch_aggregation _ "/alice/home/D").2.2 "/r/a.txt" "/r/b.txt" "/r/c.txt" (by decide)

/-- C10: the batch result's counters always satisfy
`successful + failed = total_files`, `total_files` is the length of the
input list, and the per-file record list has exactly one entry per input
file, in input order. -/
theorem c10_batch_count_invariants (world : Nat → FileUploadEnv)
    (paths : List String) (dir : String) :
    (upload_files_to_workspace world paths dir).successful
        + (upload_files_to_workspace world paths dir).failed
      = (upload_files_to_workspace world paths dir).total_files ∧
    (upload_files_to_workspace world paths dir).total_files = paths.length ∧
    (upload_files_to_workspace world paths dir).files.length = paths.length ∧
    (∀ k : Nat, (upload_files_to_workspace world paths dir).files.get? k =
      (paths.get? k).map (fun p => upload_file_to_workspace (world k) p dir)) := by
  rw [upload_files_to_workspace_eq]
  refine ⟨?_, rfl, ?_, ?_⟩
  · have := countP_add_countP_not (fun r : FileUploadResult => r.success)
      (uploadResults world dir 0 paths)
    have hlen := uploadResults_length world dir paths 0
    simp only []
    omega
  · exact uploadResults_length world dir paths 0
  · intro k
    simpa using uploadResults_get? world dir paths 0 k

/-- C6 fails as stated: the code tolerates any ensure-directory failure whose
lowercased message contains the word "exists", not only "already exists"
responses.  Here a timeout message that merely mentions an exists-check is
treated as success and the file's upload proceeds and succeeds, so "any
other failure is fatal for this file's upload" is false on the code. -/
theorem c6_counterexample :
    strContains (strLower "Upstream exists-check timed out") "already exists" = false ∧
    (ensure_workspace_directory_exists
        (CallOutcome.exn "Upstream exists-check timed out") "/alice/home/D").success = true ∧
    (upload_file_to_workspace
        { ensureOutcome := CallOutcome.exn "Upstream exists-check timed out"
          createResult := { success := true, upload_url := "https://shock.example/node/1" }
          putOutcome := HttpOutcome.resp 200 "" }
        "/tmp/run/out.txt" "/alice/home/D").success = true := by
  decide

/-- C6 amended: an ensure-directory call that raises is treated as success
exactly when its lowercased message contains "already exists" or "exists";
a failure containing neither is fatal for that file's upload only (the file
is recorded as failed with the ensure error), and sibling uploads are still
attempted (one per input file). -/
theorem c6_amended_exists_tolerance (msg d : String) :
    ((ensure_workspace_directory_exists (CallOutcome.exn msg) d).success =
      (strContains (strLower msg) "already exists" || strContains (strLower msg) "exists")) ∧
    (∀ (fenv : FileUploadEnv) (p : String),
      fenv.ensureOutcome = CallOutcome.exn msg →
      strContains (strLower msg) "already exists" = false →
      strContains (strLower msg) "exists" = false →
      (upload_file_to_workspace fenv p d).success = false ∧
      (upload_file_to_workspace fenv p d).error =
        some ("Failed to ensure workspace directory " ++ d ++ ": " ++ msg)) ∧
    (∀ (world : Nat → FileUploadEnv) (paths : List String),
      (upload_files_to_workspace world paths d).files.length = paths.length) := by
  refine ⟨?_, ?_, ?_⟩
  · by_cases h1 : strContains (strLower msg) "already exists" <;>
      by_cases h2 : strContains (strLower msg) "exists" <;>
      simp [ensure_workspace_directory_exists, h1, h2]
  · intro fenv p hens h1 h2
    simp [upload_file_to_workspace, hens, ensure_workspace_directory_exists, h1, h2]
  · intro world paths
    rw [upload_files_to_workspace_eq]
    exact uploadResults_length world d paths 0

/-- Witness for C6 amended: a concrete ensure failure with no "exists" in
the message fails exactly this file's upload with the ensure error. -/
theorem c6_amended_exists_tolerance_witness :
    (upload_file_to_workspace
        { ensureOutcome := CallOutcome.exn "permission denied"
          createResult := { success := true, upload_url := "https://shock.example/node/1" }
          putOutcome := HttpOutcome.resp 200 "" }
        "/tmp/run/out.txt" "/alice/home/D").success = false ∧
    (upload_file_to_workspace
        { ensureOutcome := CallOutcome.exn "permission denied"
          createResult := { success := true, upload_url := "https://shock.example/node/1" }
          putOutcome := HttpOutcome.resp 200 "" }
        "/tmp/run/out.txt" "/alice/home/D").error =
      some ("Failed to ensure workspace directory " ++ "/alice/home/D" ++ ": "
        ++ "permission denied") := by
  exact (c6_amended_exists_tolerance "permission denied" "/alice/home/D").2.1
    _ "/tmp/run/out.txt" rfl (by decide) (by decide)

/-! ### Characterization of the orchestrator -/

theorem get_file_info_path (facts : FileFacts) (p : String) (inc : Bool) :
    (_get_file_info facts p inc).path = p := by
  unfold _get_file_info
  split
  · rfl
  dsimp only
  repeat' split
  all_goals rfl

/-- Every per-file record produced by output detection keeps its path, which
is one of the detected new paths: its normalization differs from the
normalized script path. -/
theorem detectOutputFiles_path_ne (walkAfter : DirWalk) (before : List String)
    (sp : String) (facts : String → FileFacts) (inc : Bool) :
    ∀ fi ∈ detectOutputFiles walkAfter before sp facts inc,
      normpath fi.path ≠ normpath sp ∧ fi.path ≠ sp := by
  intro fi hfi
  unfold detectOutputFiles at hfi
  rcases List.mem_map.mp hfi with ⟨q, hq, rfl⟩
  rw [List.mem_insertionSort, List.mem_filter] at hq
  have hns : normpath q ≠ normpath sp := by simpa using hq.2
  rw [get_file_info_path]
  exact ⟨hns, fun hEq => hns (by rw [hEq])⟩

/-- Every detected new path that is not the script appears among the
detection results with its metadata record. -/
theorem detectOutputFiles_mem (walkAfter : DirWalk) (before : List String)
    (sp : String) (facts : String → FileFacts) (inc : Bool) (p : String)
    (hin : p ∈ _get_files_in_directory walkAfter) (hnb : p ∉ before)
    (hns : normpath p ≠ normpath sp) :
    _get_file_info (facts p) p inc ∈ detectOutputFiles walkAfter before sp facts inc := by
  unfold detectOutputFiles
  apply List.mem_map_of_mem
  rw [List.mem_insertionSort, List.mem_filter]
  refine ⟨?_, by simpa using hns⟩
  rw [List.mem_filter]
  exact ⟨hin, by simpa using hnb⟩

/-- One-step view of the pipeline once it reaches the `Executing` stage:
after all validation passes and the script is written, the result is the
subprocess classification with the detected output files and the upload
stage attached — for every spawn outcome. -/
theorem execute_python_code_run_eq (env : ExecEnv) (code : String)
    (timeout : Option Nat) (capture_output : Bool) (config : Config)
    (token : Option String) (session_id : String) (container : String)
    (hsid : ¬ session_id = "") (hc : config.singularity_container = some container)
    (hcd : env.containerOnDisk = true) (hse : env.sessionDirExists = true)
    (hsd : env.sessionDirIsDir = true) (hsw : env.sessionDirWritable = true)
    (hmk : env.makedirsOk = true) (hwr : env.writeOk = true) :
    execute_python_code env code timeout capture_output config token session_id =
      { classifyOutcome env.spawn capture_output (effectiveTimeout timeout config) with
        output_files := detectOutputFiles env.walkAfter
          (_get_files_in_directory env.walkBefore) (scriptPathOf config session_id env)
          env.facts config.include_file_contents
        workspace_upload := some (uploadStage env.uploadWorld token
          (scriptPathOf config session_id env)
          (detectOutputFiles env.walkAfter (_get_files_in_directory env.walkBefore)
            (scriptPathOf config session_id env) env.facts config.include_file_contents)
          env.runFolderName config) } := by
  simp [execute_python_code, hsid, hc, hcd, hse, hsd, hsw, hmk, hwr]

/-! ### Claims about the orchestrator -/

/-- C1: when a request that reached the `Executing` stage fails with any
classification (nonzero exit, timeout, missing runtime binary, or other
spawn error), the pipeline still performs the post-execution snapshot, the
before/after diff and metadata extraction (`output_files` is exactly the
detection result), every file present after the run and absent before it —
other than the script the pipeline itself wrote between the snapshots — is
listed, and the upload stage still runs (`workspace_upload` is populated). -/
theorem c1_execution_failure_pipeline_continues (env : ExecEnv) (code : String)
    (timeout : Option Nat) (capture_output : Bool) (config : Config)
    (token : Option String) (session_id : String) (container : String)
    (hsid : ¬ session_id = "") (hc : config.singularity_container = some container)
    (hcd : env.containerOnDisk = true) (hse : env.sessionDirExists = true)
    (hsd : env.sessionDirIsDir = true) (hsw : env.sessionDirWritable = true)
    (hmk : env.makedirsOk = true) (hwr : env.writeOk = true)
    (hfail : spawnFailing env.spawn = true) :
    ((execute_python_code env code timeout capture_output config token session_id).output_files =
      detectOutputFiles env.walkAfter (_get_files_in_directory env.walkBefore)
        (scriptPathOf config session_id env) env.facts config.include_file_contents) ∧
    (∀ p : String, p ∈ _get_files_in_directory env.walkAfter →
      p ∉ _get_files_in_directory env.walkBefore →
      normpath p ≠ normpath (scriptPathOf config session_id env) →
      _get_file_info (env.facts p) p config.include_file_contents ∈
        (execute_python_code env code timeout capture_output config token session_id).output_files) ∧
    ((execute_python_code env code timeout capture_output config token
        session_id).workspace_upload.isSome = true) := by
  rw [execute_python_code_run_eq env code timeout capture_output config token session_id
    container hsid hc hcd hse hsd hsw hmk hwr]
  refine ⟨rfl, ?_, rfl⟩
  intro p hin hnb hns
  exact detectOutputFiles_mem env.walkAfter (_get_files_in_directory env.walkBefore)
    (scriptPathOf config session_id env) env.facts config.include_file_contents p hin hnb hns

/-- Witness for C1: a timed-out sample run whose partial artifact `out.txt`
is reported in `output_files`. -/
theorem c1_execution_failure_pipeline_continues_witness :
    spawnFailing sampleTimeoutEnv.spawn = true ∧
    _get_file_info (sampleTimeoutEnv.facts (sampleRunRoot ++ "/out.txt"))
        (sampleRunRoot ++ "/out.txt") sampleConfig.include_file_contents ∈
      (execute_python_code sampleTimeoutEnv "x = 1" none true sampleConfig
        (some "un=alice|t") "s1").output_files := by
  refine ⟨by decide, ?_⟩
  exact (c1_execution_failure_pipeline_continues sampleTimeoutEnv "x = 1" none true
    sampleConfig (some "un=alice|t") "s1" "/containers/python.sif"
    (by decide) (by decide) (by decide) (by decide) (by decide) (by decide)
    (by decide) (by decide) (by decide)).2.1
    (sampleRunRoot ++ "/out.txt") (by decide) (by decide) (by decide)

/-- C3: the script file the pipeline wrote (`runDir/script.py`) is never an
element of the returned `output_files`, even though it always appears in the
before/after snapshot difference (it is written between the two snapshots):
every returned record's path differs from the script path, under
normalization too. -/
theorem c3_script_excluded_from_output_files (env : ExecEnv) (code : String)
    (timeout : Option Nat) (capture_output : Bool) (config : Config)
    (token : Option String) (session_id : String) (container : String)
    (hsid : ¬ session_id = "") (hc : config.singularity_container = some container)
    (hcd : env.containerOnDisk = true) (hse : env.sessionDirExists = true)
    (hsd : env.sessionDirIsDir = true) (hsw : env.sessionDirWritable = true)
    (hmk : env.makedirsOk = true) (hwr : env.writeOk = true) :
    ∀ fi ∈ (execute_python_code env code timeout capture_output config token
        session_id).output_files,
      fi.path ≠ scriptPathOf config session_id env ∧
      normpath fi.path ≠ normpath (scriptPathOf config session_id env) := by
  rw [execute_python_code_run_eq env code timeout capture_output config token session_id
    container hsid hc hcd hse hsd hsw hmk hwr]
  intro fi hfi
  have h := detectOutputFiles_path_ne env.walkAfter (_get_files_in_directory env.walkBefore)
    (scriptPathOf config session_id env) env.facts config.include_file_contents fi hfi
  exact ⟨h.2, h.1⟩

/-- Witness for C3: in the sample timed-out run the script is in the
before/after difference, yet the single reported artifact differs from the
script path. -/
theorem c3_script_excluded_from_output_files_witness :
    (sampleRunRoot ++ "/script.py") ∈ _get_files_in_directory sampleTimeoutEnv.walkAfter ∧
    (sampleRunRoot ++ "/script.py") ∉ _get_files_in_directory sampleTimeoutEnv.walkBefore ∧
    (_get_file_info (sampleTimeoutEnv.facts (sampleRunRoot ++ "/out.txt"))
        (sampleRunRoot ++ "/out.txt") sampleConfig.include_file_contents).path ≠
      scriptPathOf sampleConfig "s1" sampleTimeoutEnv := by
  refine ⟨by decide, by decide, ?_⟩
  exact ((c3_script_excluded_from_output_files sampleTimeoutEnv "x = 1" none true
    sampleConfig (some "un=alice|t") "s1" "/containers/python.sif"
    (by decide) (by decide) (by decide) (by decide) (by decide) (by decide)
    (by decide) (by decide))
    (_get_file_info (sampleTimeoutEnv.facts (sampleRunRoot ++ "/out.txt"))
        (sampleRunRoot ++ "/out.txt") sampleConfig.include_file_contents)
    (by decide)).1

/-- C4: exact classification of every subprocess outcome.  Exit code 0 is
success; a nonzero code is an `EXECUTION_ERROR` whose error text is the
captured stderr, or the synthesized "Process exited with code …" message
when the captured stderr is empty; timeout expiry is a `TIMEOUT_ERROR`;
a missing runtime binary is the runtime-unavailable case, surfaced as
`CONFIGURATION_ERROR` with its fixed message; any other spawn exception is
the spawn-error case, surfaced as `EXECUTION_ERROR` with the "Error
executing Singularity command" message. -/
theorem c4_outcome_classification (env : ExecEnv) (code : String)
    (timeout : Option Nat) (capture_output : Bool) (config : Config)
    (token : Option String) (session_id : String) (container : String)
    (hsid : ¬ session_id = "") (hc : config.singularity_container = some container)
    (hcd : env.containerOnDisk = true) (hse : env.sessionDirExists = true)
    (hsd : env.sessionDirIsDir = true) (hsw : env.sessionDirWritable = true)
    (hmk : env.makedirsOk = true) (hwr : env.writeOk = true) :
    (∀ (rc : Int) (out err : String), env.spawn = SpawnOutcome.completed rc out err →
      ((execute_python_code env code timeout capture_output config token session_id).success
          = decide (rc = 0)) ∧
      (rc = 0 →
        (execute_python_code env code timeout capture_output config token
            session_id).errorType = none ∧
        (execute_python_code env code timeout capture_output config token session_id).error
          = (if capture_output then err else "")) ∧
      (rc ≠ 0 →
        (execute_python_code env code timeout capture_output config token
            session_id).errorType = some "EXECUTION_ERROR" ∧
        (execute_python_code env code timeout capture_output config token session_id).error
          = (if capture_output ∧ err ≠ "" then err
             else "Process exited with code " ++ toString rc))) ∧
    (env.spawn = SpawnOutcome.timeoutExpired →
      (execute_python_code env code timeout capture_output config token
          session_id).success = false ∧
      (execute_python_code env code timeout capture_output config token
          session_id).errorType = some "TIMEOUT_ERROR" ∧
      (execute_python_code env code timeout capture_output config token session_id).error
        = "Execution timed out after " ++ toString (effectiveTimeout timeout config)
          ++ " seconds") ∧
    (env.spawn = SpawnOutcome.binaryNotFound →
      (execute_python_code env code timeout capture_output config token
          session_id).success = false ∧
      (execute_python_code env code timeout capture_output config token
          session_id).errorType = some "CONFIGURATION_ERROR" ∧
      (execute_python_code env code timeout capture_output config token session_id).error
        = "Singularity command not found. Is Singularity installed?") ∧
    (∀ m : String, env.spawn = SpawnOutcome.otherError m →
      (execute_python_code env code timeout capture_output config token
          session_id).success = false ∧
      (execute_python_code env code timeout capture_output config token
          session_id).errorType = some "EXECUTION_ERROR" ∧
      (execute_python_code env code timeout capture_output config token session_id).error
        = "Error executing Singularity command: " ++ m) := by
  rw [execute_python_code_run_eq env code timeout capture_output config token session_id
    container hsid hc hcd hse hsd hsw hmk hwr]
  refine ⟨?_, ?_, ?_, ?_⟩
  · intro rc out err heq
    refine ⟨?_, ?_, ?_⟩
    · simp [classifyOutcome, heq]
      by_cases hrc : rc = 0 <;> simp [hrc]
    · intro hrc
      simp [classifyOutcome, heq, hrc]
    · intro hrc
      by_cases hcap : capture_output <;> by_cases herr : err = "" <;>
        simp [classifyOutcome, heq, hrc, hcap, herr]
  · intro heq
    simp [classifyOutcome, heq]
  · intro heq
    simp [classifyOutcome, heq]
  · intro m heq
    simp [classifyOutcome, heq]

/-- Witness for C4: a sample run exiting with code 2 and empty stderr is
classified as a failed `EXECUTION_ERROR` with the synthesized message. -/
theorem c4_outcome_classification_witness :
    (execute_python_code sampleNonzeroEnv "x = 1" none true sampleConfig none
        "s1").success = decide ((2 : Int) = 0) ∧
    (execute_python_code sampleNonzeroEnv "x = 1" none true sampleConfig none
        "s1").errorType = some "EXECUTION_ERROR" ∧
    (execute_python_code sampleNonzeroEnv "x = 1" none true sampleConfig none
        "s1").error = (if True ∧ ("" : String) ≠ "" then ""
          else "Process exited with code " ++ toString (2 : Int)) := by
  have h := (c4_outcome_classification sampleNonzeroEnv "x = 1" none true sampleConfig
    none "s1" "/containers/python.sif" (by decide) (by decide) (by decide) (by decide)
    (by decide) (by decide) (by decide) (by decide)).1 2 "partial output" "" rfl
  have h2 := h.2.2 (by decide)
  exact ⟨h.1, h2.1, by simpa using h2.2⟩

/-- C5 fails as stated: a missing runtime binary ("runtime not found",
`FileNotFoundError` at spawn time, classified `CONFIGURATION_ERROR`) does
not abort the pipeline before artifact detection — in this concrete run
artifacts are still detected and an upload is still attempted, so the
result does not carry "only the error fields". -/
theorem c5_counterexample :
    (execute_python_code sampleBinaryMissingEnv "x = 1" none true sampleConfig
        (some "un=alice|t") "s1").errorType = some "CONFIGURATION_ERROR" ∧
    (execute_python_code sampleBinaryMissingEnv "x = 1" none true sampleConfig
        (some "un=alice|t") "s1").output_files ≠ [] ∧
    (execute_python_code sampleBinaryMissingEnv "x = 1" none true sampleConfig
        (some "un=alice|t") "s1").workspace_upload ≠ none := by
  decide

/-- C5 amended: the configuration errors detected before the spawn —
container unspecified or not on disk, session directory missing, not a
directory, or unwritable — abort the pipeline immediately with only the
error fields (`success = false`, `errorType = CONFIGURATION_ERROR`, no
artifacts, no upload), and the result is independent of the subprocess
outcome, the post-run walk, the stat facts and the upload world.  (A missing
runtime binary, by contrast, surfaces at spawn time and still goes through
detection and upload.) -/
theorem c5_amended_pre_spawn_aborts (env : ExecEnv) (code : String)
    (timeout : Option Nat) (capture_output : Bool) (config : Config)
    (token : Option String) (session_id : String)
    (hsid : ¬ session_id = "")
    (hfail : config.singularity_container = none ∨ env.containerOnDisk = false ∨
      env.sessionDirExists = false ∨ env.sessionDirIsDir = false ∨
      env.sessionDirWritable = false) :
    ((execute_python_code env code timeout capture_output config token
        session_id).success = false) ∧
    ((execute_python_code env code timeout capture_output config token
        session_id).errorType = some "CONFIGURATION_ERROR") ∧
    ((execute_python_code env code timeout capture_output config token
        session_id).output_files = []) ∧
    ((execute_python_code env code timeout capture_output config token
        session_id).workspace_upload = none) ∧
    (∀ (s : SpawnOutcome) (w : DirWalk) (f : String → FileFacts)
        (uw : Nat → FileUploadEnv),
      execute_python_code
          { env with spawn := s, walkAfter := w, facts := f, uploadWorld := uw }
          code timeout capture_output config token session_id =
        execute_python_code env code timeout capture_output config token session_id) := by
  cases hcfg : config.singularity_container with
  | none => simp [execute_python_code, hsid, hcfg]
  | some c =>
    by_cases hcd : env.containerOnDisk
    · by_cases hse : env.sessionDirExists
      · by_cases hsd : env.sessionDirIsDir
        · by_cases hsw : env.sessionDirWritable
          · rcases hfail with h | h | h | h | h <;> simp_all
          · simp [execute_python_code, hsid, hcfg, hcd, hse, hsd, hsw]
        · simp [execute_python_code, hsid, hcfg, hcd, hse, hsd]
      · simp [execute_python_code, hsid, hcfg, hcd, hse]
    · simp [execute_python_code, hsid, hcfg, hcd]

/-- Witness for C5 amended: with the container image absent from disk the
pipeline aborts with only the error fields. -/
theorem c5_amended_pre_spawn_aborts_witness :
    ((execute_python_code (ExecEnv.mk false true true true
        "python_run_20240101_000000_00000000" true "" true "" (DirWalk.mk true [])
        (SpawnOutcome.completed 0 "" "") (DirWalk.mk true []) (fun _ => {})
        (fun _ => FileUploadEnv.mk CallOutcome.ok { success := true } true
          (HttpOutcome.resp 200 ""))) "x = 1" none true sampleConfig
        (some "un=alice|t") "s1").errorType = some "CONFIGURATION_ERROR") ∧
    ((execute_python_code (ExecEnv.mk false true true true
        "python_run_20240101_000000_00000000" true "" true "" (DirWalk.mk true [])
        (SpawnOutcome.completed 0 "" "") (DirWalk.mk true []) (fun _ => {})
        (fun _ => FileUploadEnv.mk CallOutcome.ok { success := true } true
          (HttpOutcome.resp 200 ""))) "x = 1" none true sampleConfig
        (some "un=alice|t") "s1").workspace_upload = none) := by
  have h := c5_amended_pre_spawn_aborts (ExecEnv.mk false true true true
    "python_run_20240101_000000_00000000" true "" true "" (DirWalk.mk true [])
    (SpawnOutcome.completed 0 "" "") (DirWalk.mk true []) (fun _ => {})
    (fun _ => FileUploadEnv.mk CallOutcome.ok { success := true } true
      (HttpOutcome.resp 200 ""))) "x = 1" none true sampleConfig
    (some "un=alice|t") "s1" (by decide) (Or.inr (Or.inl rfl))
  exact ⟨h.2.1, h.2.2.2.1⟩

/-- C9 fails as stated: a request with no credential that aborts during
validation (here: missing session id) returns `workspace_upload = none`
rather than the explicit skipped-with-reason marker, so "for every
execution request with no credential the result's workspace_upload field is
an explicit skipped-with-reason marker" is false on the code. -/
theorem c9_counterexample :
    (execute_python_code sampleTimeoutEnv "x = 1" none true sampleConfig none
        "").workspace_upload = none ∧
    (execute_python_code sampleTimeoutEnv "x = 1" none true sampleConfig none
        "").workspace_upload ≠
      some { success := false
             message := some "No token provided, skipping workspace upload" } := by
  decide

/-- C9 amended: for every request that reaches the execution stage with no
credential, the uploader is never invoked (the result does not depend on the
upload world), `workspace_upload` is the explicit skip marker rather than an
empty success, and the overall success flag is exactly the execution
classification's success, unaffected by upload status.  (Requests that abort
during validation return `workspace_upload = none` instead.) -/
theorem c9_amended_skip_marker (env : ExecEnv) (code : String)
    (timeout : Option Nat) (capture_output : Bool) (config : Config)
    (token : Option String) (session_id : String) (container : String)
    (hsid : ¬ session_id = "") (hc : config.singularity_container = some container)
    (hcd : env.containerOnDisk = true) (hse : env.sessionDirExists = true)
    (hsd : env.sessionDirIsDir = true) (hsw : env.sessionDirWritable = true)
    (hmk : env.makedirsOk = true) (hwr : env.writeOk = true)
    (htok : truthy token = false) :
    ((execute_python_code env code timeout capture_output config token
        session_id).workspace_upload =
      some { success := false
             message := some "No token provided, skipping workspace upload" }) ∧
    (∀ uw : Nat → FileUploadEnv,
      execute_python_code { env with uploadWorld := uw } code timeout capture_output
          config token session_id =
        execute_python_code env code timeout capture_output config token session_id) ∧
    ((execute_python_code env code timeout capture_output config token
        session_id).success =
      (classifyOutcome env.spawn capture_output (effectiveTimeout timeout config)).success) := by
  rw [execute_python_code_run_eq env code timeout capture_output config token session_id
    container hsid hc hcd hse hsd hsw hmk hwr]
  refine ⟨?_, ?_, rfl⟩
  · simp [uploadStage, htok]
  · intro uw
    rw [execute_python_code_run_eq { env with uploadWorld := uw } code timeout
      capture_output config token session_id container hsid hc hcd hse hsd hsw hmk hwr]
    simp [uploadStage, htok, scriptPathOf, runFolderPathOf]

/-- Witness for C9 amended: the sample timed-out run with no token records
the skip marker and its success flag is the classification's. -/
theorem c9_amended_skip_marker_witness :
    ((execute_python_code sampleTimeoutEnv "x = 1" none true sampleConfig none
        "s1").workspace_upload =
      some { success := false
             message := some "No token provided, skipping workspace upload" }) ∧
    ((execute_python_code sampleTimeoutEnv "x = 1" none true sampleConfig none
        "s1").success =
      (classifyOutcome sampleTimeoutEnv.spawn true
        (effectiveTimeout none sampleConfig)).success) := by
  have h := c9_amended_skip_marker sampleTimeoutEnv "x = 1" none true sampleConfig
    none "s1" "/containers/python.sif" (by decide) (by decide) (by decide) (by decide)
    (by decide) (by decide) (by decide) (by decide) (by decide)
  exact ⟨h.1, h.2.2⟩

/-- C7 (code bug): the snapshotter normalizes with the purely syntactic
`os.path.normpath` — despite its comment "Normalize path to handle
symlinks" and the spec's "symlinks resolved" — so two directory entries that
reach the same file through different symlinks do not collapse.  Concretely,
for a walk of a directory holding `a.txt` and a symlink `link.txt` to it,
both paths are fixed points of `normpath` and the snapshot keeps two
distinct entries where symlink resolution would keep one. -/
theorem c7_symlink_aliases_not_collapsed :
    "/s/r/a.txt" ∈ _get_files_in_directory
      (DirWalk.mk true [("/s/r", "a.txt"), ("/s/r", "link.txt")]) ∧
    "/s/r/link.txt" ∈ _get_files_in_directory
      (DirWalk.mk true [("/s/r", "a.txt"), ("/s/r", "link.txt")]) ∧
    (_get_files_in_directory
      (DirWalk.mk true [("/s/r", "a.txt"), ("/s/r", "link.txt")])).length = 2 ∧
    normpath "/s/r/link.txt" = "/s/r/link.txt" ∧
    normpath "/s/r/a.txt" = "/s/r/a.txt" := by
  decide

/-- C8: with content inclusion enabled, a successfully stat'ed artifact's
record carries the file's full text content exactly when its computed
category is text, its size is below the 10000-byte ceiling and the read
succeeded; in every other case (non-text category, oversized file, or failed
/ undecodable read) the content field is entirely absent — never truncated —
and the record still carries size and a category, with no error. -/
theorem c8_content_inclusion_policy (facts : FileFacts) (p : String)
    (hstat : facts.statOk = true) :
    ((_get_file_info facts p true).error = none) ∧
    ((_get_file_info facts p true).size = some facts.size) ∧
    ((_get_file_info facts p true).type.isSome = true) ∧
    (∀ c : String, (_get_file_info facts p true).content = some c ↔
      ((_get_file_info facts p true).type = some "text" ∧ facts.size < 10000 ∧
        facts.readContent = some c)) := by
  unfold _get_file_info
  simp only [hstat]
  cases hg : facts.guessedMime <;> (try dsimp only) <;> split_ifs <;>
    (try cases hr : facts.readContent) <;> simp_all

/-- Witness for C8: a 5000-byte `text/plain` file gets its full content; a
50000-byte one keeps size and category but no content. -/
theorem c8_content_inclusion_policy_witness :
    ((_get_file_info (FileFacts.mk true "" 5000 0 true (some "text/plain")
        (some "hello")) "/r/small.txt" true).content = some "hello") ∧
    ((_get_file_info (FileFacts.mk true "" 50000 0 true (some "text/plain")
        (some "big")) "/r/big.txt" true).content = none) ∧
    ((_get_file_info (FileFacts.mk true "" 50000 0 true (some "text/plain")
        (some "big")) "/r/big.txt" true).size = some 50000) ∧
    ((_get_file_info (FileFacts.mk true "" 50000 0 true (some "text/plain")
        (some "big")) "/r/big.txt" true).type = some "text") := by
  have hsmall := (c8_content_inclusion_policy (FileFacts.mk true "" 5000 0 true
    (some "text/plain") (some "hello")) "/r/small.txt" rfl).2.2.2 "hello"
  have hbig := (c8_content_inclusion_policy (FileFacts.mk true "" 50000 0 true
    (some "text/plain") (some "big")) "/r/big.txt" rfl).2.2.2
  refine ⟨hsmall.mpr ⟨by decide, by decide, rfl⟩, ?_, by decide, by decide⟩
  cases hco : (_get_file_info (FileFacts.mk true "" 50000 0 true (some "text/plain")
      (some "big")) "/r/big.txt" true).content with
  | none => rfl
  | some c =>
    exact absurd ((hbig c).mp hco).2.1 (by decide)

end CopilotMcp
